import Mathlib

/-!
Verification of the SPI master driver of the Light-Switch repository
(`components/drivers_nrf/spi_master/spi_master.h`).

The repository ships only the header `spi_master.h` (declarations, types,
constants and documented return values); the paired implementation
`spi_master.c` is not part of the sources.  Types, enumerations and
constants below are embedded directly from the header; the behaviour of
each API call is modelled from the specification (marked
`Modelled from the spec:` on each such definition).

The driver is per-instance: each instance carries a lifecycle state, a
registered event callback, and the bookkeeping of the in-flight transfer.
We embed one instance as a record and each API call as a pure function
from the instance record (plus arguments) to a result code, the updated
record and the list of events raised synchronously during the call.
-/

namespace SpiMaster

/-- From `spi_master.h` line 34: value used for pin deinitialization. -/
def SPI_PIN_DISCONNECTED : Nat := 0xFFFFFFFF

/-- From `spi_master.h` lines 35-36: default byte, used to clock
transmission from slave to the master. -/
def SPI_DEFAULT_TX_BYTE : Nat := 0x00

/-- Truncation to a `uint16_t` value (assignment into a 16-bit field). -/
def toU16 (n : Nat) : Nat := n % 65536

/-- Truncation to a `uint8_t` value (assignment into a byte buffer). -/
def toU8 (n : Nat) : Nat := n % 256

/-- From `spi_master.h` lines 54-66: `spi_master_config_t`. -/
structure spi_master_config_t where
  SPI_Freq : Nat
  SPI_Pin_SCK : Nat
  SPI_Pin_MISO : Nat
  SPI_Pin_MOSI : Nat
  SPI_Pin_SS : Nat
  SPI_PriorityIRQ : Nat
  SPI_CONFIG_ORDER : Nat
  SPI_CONFIG_CPOL : Nat
  SPI_CONFIG_CPHA : Nat
  SPI_DisableAllIRQ : Nat
  deriving DecidableEq, Repr

/-- From `spi_master.h` lines 69-74: `spi_master_evt_type_t`. -/
inductive spi_master_evt_type_t where
  | SPI_MASTER_EVT_TRANSFER_STARTED
  | SPI_MASTER_EVT_TRANSFER_COMPLETED
  | SPI_MASTER_EVT_TYPE_MAX
  deriving DecidableEq, Repr

export spi_master_evt_type_t (SPI_MASTER_EVT_TRANSFER_STARTED
  SPI_MASTER_EVT_TRANSFER_COMPLETED SPI_MASTER_EVT_TYPE_MAX)

/-- From `spi_master.h` lines 77-81: `spi_master_evt_t`; `data_count` is a
`uint16_t` field, so every value stored into it goes through `toU16`. -/
structure spi_master_evt_t where
  evt_type : spi_master_evt_type_t
  data_count : Nat
  deriving DecidableEq, Repr

/-- From `spi_master.h` lines 84-89: `spi_master_state_t`. -/
inductive spi_master_state_t where
  | SPI_MASTER_STATE_DISABLED
  | SPI_MASTER_STATE_BUSY
  | SPI_MASTER_STATE_IDLE
  deriving DecidableEq, Repr

export spi_master_state_t (SPI_MASTER_STATE_DISABLED SPI_MASTER_STATE_BUSY
  SPI_MASTER_STATE_IDLE)

/-- Result codes documented in `spi_master.h` (the `uint32_t` return
values named in the `@retval` documentation) together with the error
names of the specification's error taxonomy. -/
inductive SpiResult where
  | NRF_SUCCESS
  | NRF_ERROR_INVALID_STATE
  | NRF_ERROR_NULL
  | NRF_ERROR_INVALID_PARAM
  | NRF_ERROR_BUSY
  deriving DecidableEq, Repr

export SpiResult (NRF_SUCCESS NRF_ERROR_INVALID_STATE NRF_ERROR_NULL
  NRF_ERROR_INVALID_PARAM NRF_ERROR_BUSY)

/-- One driver instance: its lifecycle state, the registered event
handler (an opaque callback identifier, `none` when unregistered), the
borrowed references to the caller's buffers (`none` when released) and
the progress counter of the in-flight transfer.  Buffers are modelled as
byte lists; the borrowed reference carries the observable contents. -/
structure SpiInstance where
  state : spi_master_state_t
  handler : Option Nat
  p_tx_buf : Option (List Nat)
  tx_buf_len : Nat
  p_rx_buf : Option (List Nat)
  rx_buf_len : Nat
  bytes_transferred : Nat
  deriving DecidableEq, Repr

/-- The cleared registry entry: state `Disabled`, no callback, no
buffer references, zero progress. -/
def clearedInstance : SpiInstance :=
  { state := SPI_MASTER_STATE_DISABLED
    handler := none
    p_tx_buf := none
    tx_buf_len := 0
    p_rx_buf := none
    rx_buf_len := 0
    bytes_transferred := 0 }

/-- Capacity of a caller-supplied buffer: an absent buffer holds zero
bytes. -/
def bufCapacity : Option (List Nat) → Nat
  | none => 0
  | some l => l.length

/-- Modelled from the spec: raising an event.  "If no callback is
registered, events are raised internally as no-ops (state transitions
still occur; only the notification is dropped)."  The `data_count`
field is `uint16_t`, so the stored count is truncated with `toU16`. -/
def raise_event (s : SpiInstance) (t : spi_master_evt_type_t) (cnt : Nat) :
    List spi_master_evt_t :=
  match s.handler with
  | none => []
  | some _ => [⟨t, toU16 cnt⟩]

/-- Modelled from the spec: structural validity of a configuration,
checked at `open` time ("invalid configurations (e.g., all-sentinel pins
when pins are required) fail deterministically"). -/
def config_structurally_valid (c : spi_master_config_t) : Bool :=
  ¬(c.SPI_Pin_SCK = SPI_PIN_DISCONNECTED ∧
    c.SPI_Pin_MISO = SPI_PIN_DISCONNECTED ∧
    c.SPI_Pin_MOSI = SPI_PIN_DISCONNECTED ∧
    c.SPI_Pin_SS = SPI_PIN_DISCONNECTED)

/-- Modelled from the spec: `spi_master_open` (the implementation
`spi_master.c` is not among the sources; header lines 112-129 document
the contract).  Fails with `NRF_ERROR_INVALID_STATE` if the instance is
already open, with `NRF_ERROR_NULL` if the configuration pointer is
absent or the configuration structurally invalid; on success programs
the hardware, sets the state to `Idle` and leaves no callback
registered ("unregister events callback", header line 113). -/
def spi_master_open (s : SpiInstance) (cfg : Option spi_master_config_t) :
    SpiResult × SpiInstance :=
  if s.state ≠ SPI_MASTER_STATE_DISABLED then
    (NRF_ERROR_INVALID_STATE, s)
  else
    match cfg with
    | none => (NRF_ERROR_NULL, s)
    | some c =>
        if config_structurally_valid c then
          (NRF_SUCCESS,
            { state := SPI_MASTER_STATE_IDLE
              handler := none
              p_tx_buf := none
              tx_buf_len := 0
              p_rx_buf := none
              rx_buf_len := 0
              bytes_transferred := 0 })
        else
          (NRF_ERROR_NULL, s)

/-- Modelled from the spec: the force-abort of an in-flight transfer
performed by `close` while `Busy` ("a close while busy must first
force-abort the in-flight transfer (drain/disable hardware) before
releasing buffer references").  It releases the borrowed buffer
references and leaves the instance out of `Busy` but not yet
`Disabled`. -/
def spi_abort (s : SpiInstance) : SpiInstance :=
  if s.state = SPI_MASTER_STATE_BUSY then
    { s with state := SPI_MASTER_STATE_IDLE
             p_tx_buf := none
             p_rx_buf := none }
  else s

/-- Modelled from the spec: `spi_master_close` (header lines 132-139:
"disable hardware, reset internal module states and unregister events
callback"; the C return type is `void`, so the call signals no error).
A close while busy first force-aborts via `spi_abort`, then disables
the peripheral and clears the registry entry. -/
def spi_master_close (s : SpiInstance) : SpiInstance :=
  let s1 := spi_abort s
  { s1 with state := SPI_MASTER_STATE_DISABLED
            handler := none
            p_tx_buf := none
            tx_buf_len := 0
            p_rx_buf := none
            rx_buf_len := 0
            bytes_transferred := 0 }

/-- Modelled from the spec: `spi_master_evt_handler_reg` (header lines
164-174): replaces any previously registered callback, no other
effect. -/
def spi_master_evt_handler_reg (s : SpiInstance) (h : Nat) : SpiInstance :=
  { s with handler := some h }

/-- `spi_master_get_state` (header lines 177-187): pure read of the
instance state. -/
def spi_master_get_state (s : SpiInstance) : spi_master_state_t :=
  s.state

/-- Total length of the in-flight transfer: the engine clocks
`max(tx_len, rx_len)` bytes. -/
def transfer_len (s : SpiInstance) : Nat :=
  max s.tx_buf_len s.rx_buf_len

/-- Modelled from the spec: `spi_master_send_recv` (the implementation
`spi_master.c` is not among the sources; header lines 142-161 and spec
§4.2 document the contract).  Rejected with `NRF_ERROR_BUSY` unless the
instance is `Idle`; a buffer may be absent only when its length is
zero (`NRF_ERROR_NULL` otherwise); a length exceeding the buffer's
capacity fails with `NRF_ERROR_INVALID_PARAM`.  On acceptance the
instance transitions to `Busy` with progress zero, the borrowed buffer
references are registered and `SPI_MASTER_EVT_TRANSFER_STARTED` with
`data_count = 0` is raised synchronously before the call returns
`NRF_SUCCESS`. -/
def spi_master_send_recv (s : SpiInstance)
    (p_tx : Option (List Nat)) (tx_buf_len : Nat)
    (p_rx : Option (List Nat)) (rx_buf_len : Nat) :
    SpiResult × SpiInstance × List spi_master_evt_t :=
  if s.state ≠ SPI_MASTER_STATE_IDLE then
    (NRF_ERROR_BUSY, s, [])
  else if (p_tx = none ∧ tx_buf_len ≠ 0) ∨ (p_rx = none ∧ rx_buf_len ≠ 0) then
    (NRF_ERROR_NULL, s, [])
  else if tx_buf_len > bufCapacity p_tx ∨ rx_buf_len > bufCapacity p_rx then
    (NRF_ERROR_INVALID_PARAM, s, [])
  else
    let s1 : SpiInstance :=
      { s with state := SPI_MASTER_STATE_BUSY
               p_tx_buf := p_tx
               tx_buf_len := tx_buf_len
               p_rx_buf := p_rx
               rx_buf_len := rx_buf_len
               bytes_transferred := 0 }
    (NRF_SUCCESS, s1, raise_event s1 SPI_MASTER_EVT_TRANSFER_STARTED 0)

/-- The instance as armed by an accepted `spi_master_send_recv` call:
`Busy`, borrowed buffer references registered, progress counter zero. -/
def armed (s : SpiInstance) (p_tx : Option (List Nat)) (tx_buf_len : Nat)
    (p_rx : Option (List Nat)) (rx_buf_len : Nat) : SpiInstance :=
  { s with state := SPI_MASTER_STATE_BUSY
           p_tx_buf := p_tx
           tx_buf_len := tx_buf_len
           p_rx_buf := p_rx
           rx_buf_len := rx_buf_len
           bytes_transferred := 0 }

/-- Modelled from the spec: the byte the interrupt handler writes into
the hardware shift register at byte position `i`: "the next byte from
`tx_buf` (or the default clock byte)" once the transmit buffer is
exhausted. -/
def tx_byte_at (s : SpiInstance) (i : Nat) : Nat :=
  if i < s.tx_buf_len then
    (s.p_tx_buf.getD []).getD i SPI_DEFAULT_TX_BYTE
  else
    SPI_DEFAULT_TX_BYTE

/-- The sequence of bytes the engine clocks out over the whole transfer
(one per clock cycle, `transfer_len s` in total). -/
def shifted_out (s : SpiInstance) : List Nat :=
  (List.range (transfer_len s)).map (tx_byte_at s)

/-- Modelled from the spec: one step of the per-byte interrupt handler:
store the received byte into `rx_buf` at the current progress offset if
within `rx_len` (discard otherwise), then increment progress. -/
def step_byte (s : SpiInstance) (b : Nat) : SpiInstance :=
  let s1 :=
    if s.bytes_transferred < s.rx_buf_len then
      { s with p_rx_buf :=
          s.p_rx_buf.map (fun l => l.set s.bytes_transferred (toU8 b)) }
    else s
  { s1 with bytes_transferred := s1.bytes_transferred + 1 }

/-- Iterate the per-byte interrupt handler `n` times; `incoming i` is
the byte shifted in from the slave on clock cycle `i`. -/
def run_bytes (s : SpiInstance) (incoming : Nat → Nat) : Nat → SpiInstance
  | 0 => s
  | n + 1 => run_bytes (step_byte s (incoming s.bytes_transferred)) incoming n

/-- Modelled from the spec: the completion transition of the interrupt
handler: "transitions `Busy → Idle`, releases the buffer references,
and raises `TransferCompleted` with `data_count` equal to the total
bytes processed". -/
def complete_transfer (s : SpiInstance) :
    SpiInstance × List spi_master_evt_t :=
  let s1 := { s with state := SPI_MASTER_STATE_IDLE
                     p_tx_buf := none
                     p_rx_buf := none }
  (s1, raise_event s1 SPI_MASTER_EVT_TRANSFER_COMPLETED s.bytes_transferred)

/-- Modelled from the spec: the interrupt-driven engine run from a
`Busy` instance to completion: the remaining `transfer_len - progress`
per-byte interrupt invocations followed by the completion transition.
On a non-`Busy` instance the engine does nothing. -/
def run_transfer (s : SpiInstance) (incoming : Nat → Nat) :
    SpiInstance × List spi_master_evt_t :=
  if s.state = SPI_MASTER_STATE_BUSY then
    complete_transfer
      (run_bytes s incoming (transfer_len s - s.bytes_transferred))
  else
    (s, [])

/-- A sample configuration with all four pins connected (structurally
valid). -/
def cfgSample : spi_master_config_t :=
  { SPI_Freq := 1
    SPI_Pin_SCK := 1
    SPI_Pin_MISO := 3
    SPI_Pin_MOSI := 2
    SPI_Pin_SS := 4
    SPI_PriorityIRQ := 3
    SPI_CONFIG_ORDER := 0
    SPI_CONFIG_CPOL := 0
    SPI_CONFIG_CPHA := 0
    SPI_DisableAllIRQ := 0 }

/-- A sample idle instance with a registered callback. -/
def idleSample : SpiInstance :=
  { state := SPI_MASTER_STATE_IDLE
    handler := some 5
    p_tx_buf := none
    tx_buf_len := 0
    p_rx_buf := none
    rx_buf_len := 0
    bytes_transferred := 0 }

/-- A sample instance with a transfer in flight. -/
def busySample : SpiInstance :=
  { state := SPI_MASTER_STATE_BUSY
    handler := some 1
    p_tx_buf := some [17, 34, 51]
    tx_buf_len := 3
    p_rx_buf := some [0, 0]
    rx_buf_len := 2
    bytes_transferred := 1 }

/-- A sample busy instance whose receive length exceeds its transmit
length (a receive-only tail exists). -/
def rxHeavySample : SpiInstance :=
  { state := SPI_MASTER_STATE_BUSY
    handler := some 2
    p_tx_buf := some [17]
    tx_buf_len := 1
    p_rx_buf := some [0, 0, 0]
    rx_buf_len := 3
    bytes_transferred := 0 }

/-! ## Helper lemmas -/

theorem step_byte_fields (s : SpiInstance) (b : Nat) :
    (step_byte s b).state = s.state ∧
    (step_byte s b).handler = s.handler ∧
    (step_byte s b).tx_buf_len = s.tx_buf_len ∧
    (step_byte s b).rx_buf_len = s.rx_buf_len ∧
    (step_byte s b).bytes_transferred = s.bytes_transferred + 1 := by
  unfold step_byte
  split <;> simp

theorem run_bytes_fields (incoming : Nat → Nat) (n : Nat) :
    ∀ s : SpiInstance,
      (run_bytes s incoming n).state = s.state ∧
      (run_bytes s incoming n).handler = s.handler ∧
      (run_bytes s incoming n).tx_buf_len = s.tx_buf_len ∧
      (run_bytes s incoming n).rx_buf_len = s.rx_buf_len ∧
      (run_bytes s incoming n).bytes_transferred =
        s.bytes_transferred + n := by
  induction n with
  | zero => intro s; simp [run_bytes]
  | succ n ih =>
      intro s
      obtain ⟨h1, h2, h3, h4, h5⟩ :=
        ih (step_byte s (incoming s.bytes_transferred))
      obtain ⟨g1, g2, g3, g4, g5⟩ :=
        step_byte_fields s (incoming s.bytes_transferred)
      simp only [run_bytes]
      exact ⟨h1.trans g1, h2.trans g2, h3.trans g3, h4.trans g4,
        by rw [h5, g5]; omega⟩

theorem close_eq_cleared (s : SpiInstance) :
    spi_master_close s = clearedInstance := by
  unfold spi_master_close spi_abort clearedInstance
  split <;> rfl

theorem send_recv_accepts (s : SpiInstance)
    (p_tx : Option (List Nat)) (tx_buf_len : Nat)
    (p_rx : Option (List Nat)) (rx_buf_len : Nat)
    (hs : s.state = SPI_MASTER_STATE_IDLE)
    (htx : tx_buf_len ≤ bufCapacity p_tx)
    (hrx : rx_buf_len ≤ bufCapacity p_rx) :
    spi_master_send_recv s p_tx tx_buf_len p_rx rx_buf_len =
      (NRF_SUCCESS, armed s p_tx tx_buf_len p_rx rx_buf_len,
        raise_event (armed s p_tx tx_buf_len p_rx rx_buf_len)
          SPI_MASTER_EVT_TRANSFER_STARTED 0) := by
  have h2 : ¬((p_tx = none ∧ tx_buf_len ≠ 0) ∨
      (p_rx = none ∧ rx_buf_len ≠ 0)) := by
    push_neg
    constructor
    · intro h; subst h; simpa [bufCapacity] using htx
    · intro h; subst h; simpa [bufCapacity] using hrx
  have h3 : ¬(tx_buf_len > bufCapacity p_tx ∨
      rx_buf_len > bufCapacity p_rx) := by
    push_neg
    exact ⟨htx, hrx⟩
  simp [spi_master_send_recv, hs, h2, h3, armed]

theorem raise_event_type (u : SpiInstance) (t : spi_master_evt_type_t)
    (cnt : Nat) (e : spi_master_evt_t) (he : e ∈ raise_event u t cnt) :
    e.evt_type = t := by
  unfold raise_event at he
  cases h : u.handler with
  | none => rw [h] at he; simp at he
  | some k =>
      rw [h] at he
      simp at he
      rw [he]

theorem run_after_accept (s : SpiInstance)
    (p_tx : Option (List Nat)) (tx_buf_len : Nat)
    (p_rx : Option (List Nat)) (rx_buf_len : Nat)
    (incoming : Nat → Nat) (k : Nat)
    (hs : s.state = SPI_MASTER_STATE_IDLE)
    (hh : s.handler = some k)
    (htx : tx_buf_len ≤ bufCapacity p_tx)
    (hrx : rx_buf_len ≤ bufCapacity p_rx) :
    (run_transfer
        (spi_master_send_recv s p_tx tx_buf_len p_rx rx_buf_len).2.1
        incoming).1.state = SPI_MASTER_STATE_IDLE ∧
    (run_transfer
        (spi_master_send_recv s p_tx tx_buf_len p_rx rx_buf_len).2.1
        incoming).2 =
      [⟨SPI_MASTER_EVT_TRANSFER_COMPLETED,
        toU16 (max tx_buf_len rx_buf_len)⟩] := by
  rw [send_recv_accepts s p_tx tx_buf_len p_rx rx_buf_len hs htx hrx]
  obtain ⟨r1, r2, r3, r4, r5⟩ :=
    run_bytes_fields incoming (max tx_buf_len rx_buf_len)
      (armed s p_tx tx_buf_len p_rx rx_buf_len)
  have hAstate :
      (armed s p_tx tx_buf_len p_rx rx_buf_len).state =
        SPI_MASTER_STATE_BUSY := by
    simp [armed]
  have hlen : transfer_len (armed s p_tx tx_buf_len p_rx rx_buf_len) =
      max tx_buf_len rx_buf_len := by
    simp [armed, transfer_len]
  have hbt :
      (armed s p_tx tx_buf_len p_rx rx_buf_len).bytes_transferred = 0 := by
    simp [armed]
  have hhand :
      (armed s p_tx tx_buf_len p_rx rx_buf_len).handler = some k := by
    simp [armed, hh]
  simp only [run_transfer, hAstate, if_pos, hlen, hbt, Nat.sub_zero,
    complete_transfer, raise_event]
  rw [r2.trans hhand]
  simp only [if_true]
  constructor
  · trivial
  · rw [r5, hbt, Nat.zero_add]

/-! ## Claim theorems -/

/-- C1: for every instance whose state is `Busy`, any call to
`spi_master_send_recv` returns the `Busy` error, performs no hardware
action (no event is raised) and leaves the whole instance — the
in-flight transfer's progress counter, buffer references and buffer
contents — unchanged. -/
theorem spi_send_recv_while_busy_rejected (s : SpiInstance)
    (p_tx : Option (List Nat)) (tx_buf_len : Nat)
    (p_rx : Option (List Nat)) (rx_buf_len : Nat)
    (h : s.state = SPI_MASTER_STATE_BUSY) :
    spi_master_send_recv s p_tx tx_buf_len p_rx rx_buf_len =
      (NRF_ERROR_BUSY, s, []) := by
  simp [spi_master_send_recv, h]

/-- Witness for C1 at a concrete busy instance. -/
theorem spi_send_recv_while_busy_rejected_witness :
    spi_master_send_recv busySample (some [9]) 1 none 0 =
      (NRF_ERROR_BUSY, busySample, []) :=
  spi_send_recv_while_busy_rejected busySample (some [9]) 1 none 0 rfl

/-- C2: for every accepted transfer with lengths `tx_buf_len` and
`rx_buf_len` (each a `uint16_t` value), the completed transfer raises
`SPI_MASTER_EVT_TRANSFER_COMPLETED` with `data_count` equal to
`max tx_buf_len rx_buf_len`, and the engine clocks exactly
`max tx_buf_len rx_buf_len` bytes out of the shift register. -/
theorem spi_transfer_completed_data_count_eq_max (s : SpiInstance)
    (p_tx : Option (List Nat)) (tx_buf_len : Nat)
    (p_rx : Option (List Nat)) (rx_buf_len : Nat)
    (incoming : Nat → Nat) (k : Nat)
    (hs : s.state = SPI_MASTER_STATE_IDLE)
    (hh : s.handler = some k)
    (htx : tx_buf_len ≤ bufCapacity p_tx)
    (hrx : rx_buf_len ≤ bufCapacity p_rx)
    (htx16 : tx_buf_len < 65536) (hrx16 : rx_buf_len < 65536) :
    (run_transfer
        (spi_master_send_recv s p_tx tx_buf_len p_rx rx_buf_len).2.1
        incoming).2 =
      [⟨SPI_MASTER_EVT_TRANSFER_COMPLETED, max tx_buf_len rx_buf_len⟩] ∧
    (shifted_out
        (spi_master_send_recv s p_tx tx_buf_len p_rx rx_buf_len).2.1).length =
      max tx_buf_len rx_buf_len := by
  have hmod : toU16 (max tx_buf_len rx_buf_len) = max tx_buf_len rx_buf_len :=
    Nat.mod_eq_of_lt (Nat.max_lt.mpr ⟨htx16, hrx16⟩)
  constructor
  · have h2 := (run_after_accept s p_tx tx_buf_len p_rx rx_buf_len
      incoming k hs hh htx hrx).2
    rw [h2, hmod]
  · rw [send_recv_accepts s p_tx tx_buf_len p_rx rx_buf_len hs htx hrx]
    simp [shifted_out, transfer_len, armed]

/-- Witness for C2: a 3-byte transmit with a 2-byte receive completes
with `data_count = 3`, clocking 3 bytes. -/
theorem spi_transfer_completed_data_count_eq_max_witness :
    (run_transfer
        (spi_master_send_recv idleSample (some [17, 34, 51]) 3
          (some [0, 0]) 2).2.1 (fun _ => 165)).2 =
      [⟨SPI_MASTER_EVT_TRANSFER_COMPLETED, 3⟩] ∧
    (shifted_out
        (spi_master_send_recv idleSample (some [17, 34, 51]) 3
          (some [0, 0]) 2).2.1).length = 3 :=
  spi_transfer_completed_data_count_eq_max idleSample (some [17, 34, 51]) 3
    (some [0, 0]) 2 (fun _ => 165) 5 rfl rfl (by decide) (by decide)
    (by decide) (by decide)

/-- C3: every `spi_master_send_recv` call accepted from `Idle`
transitions the instance to `Busy`, resets the progress counter to
zero, raises `SPI_MASTER_EVT_TRANSFER_STARTED` with `data_count = 0`
synchronously within the call, and returns `NRF_SUCCESS` without
waiting for completion. -/
theorem spi_send_recv_accept_transitions_to_busy (s : SpiInstance)
    (p_tx : Option (List Nat)) (tx_buf_len : Nat)
    (p_rx : Option (List Nat)) (rx_buf_len : Nat) (k : Nat)
    (hs : s.state = SPI_MASTER_STATE_IDLE)
    (hh : s.handler = some k)
    (htx : tx_buf_len ≤ bufCapacity p_tx)
    (hrx : rx_buf_len ≤ bufCapacity p_rx) :
    (spi_master_send_recv s p_tx tx_buf_len p_rx rx_buf_len).1 =
      NRF_SUCCESS ∧
    (spi_master_send_recv s p_tx tx_buf_len p_rx rx_buf_len).2.1.state =
      SPI_MASTER_STATE_BUSY ∧
    (spi_master_send_recv
        s p_tx tx_buf_len p_rx rx_buf_len).2.1.bytes_transferred = 0 ∧
    (spi_master_send_recv s p_tx tx_buf_len p_rx rx_buf_len).2.2 =
      [⟨SPI_MASTER_EVT_TRANSFER_STARTED, 0⟩] := by
  rw [send_recv_accepts s p_tx tx_buf_len p_rx rx_buf_len hs htx hrx]
  simp [armed, raise_event, hh, toU16]

/-- Witness for C3 at a concrete idle instance. -/
theorem spi_send_recv_accept_transitions_to_busy_witness :
    (spi_master_send_recv idleSample (some [17, 34, 51]) 3 none 0).1 =
      NRF_SUCCESS ∧
    (spi_master_send_recv idleSample (some [17, 34, 51]) 3 none 0).2.1.state =
      SPI_MASTER_STATE_BUSY ∧
    (spi_master_send_recv idleSample (some [17, 34, 51]) 3
        none 0).2.1.bytes_transferred = 0 ∧
    (spi_master_send_recv idleSample (some [17, 34, 51]) 3 none 0).2.2 =
      [⟨SPI_MASTER_EVT_TRANSFER_STARTED, 0⟩] :=
  spi_send_recv_accept_transitions_to_busy idleSample (some [17, 34, 51]) 3
    none 0 5 rfl rfl (by decide) (by decide)

/-- C4: `spi_master_open` returns `NRF_ERROR_INVALID_STATE` when the
instance is already open and `NRF_ERROR_NULL` when the configuration
pointer is absent or structurally invalid, in both cases leaving the
instance unchanged; on success it sets the state to `Idle` (so
`spi_master_get_state` immediately afterwards returns `Idle`) and
leaves no callback registered. -/
theorem spi_open_contract (s : SpiInstance)
    (cfg : Option spi_master_config_t) :
    (s.state ≠ SPI_MASTER_STATE_DISABLED →
      spi_master_open s cfg = (NRF_ERROR_INVALID_STATE, s)) ∧
    (s.state = SPI_MASTER_STATE_DISABLED → cfg = none →
      spi_master_open s cfg = (NRF_ERROR_NULL, s)) ∧
    (s.state = SPI_MASTER_STATE_DISABLED →
      ∀ c, cfg = some c → config_structurally_valid c = false →
      spi_master_open s cfg = (NRF_ERROR_NULL, s)) ∧
    (s.state = SPI_MASTER_STATE_DISABLED →
      ∀ c, cfg = some c → config_structurally_valid c = true →
      (spi_master_open s cfg).1 = NRF_SUCCESS ∧
      spi_master_get_state (spi_master_open s cfg).2 =
        SPI_MASTER_STATE_IDLE ∧
      (spi_master_open s cfg).2.handler = none) := by
  refine ⟨?_, ?_, ?_, ?_⟩
  · intro h
    simp [spi_master_open, h]
  · intro h hc
    subst hc
    simp [spi_master_open, h]
  · intro h c hc hv
    subst hc
    simp [spi_master_open, h, hv]
  · intro h c hc hv
    subst hc
    simp [spi_master_open, spi_master_get_state, h, hv]

/-- Witness for C4: the three outcomes at concrete instances — a
double-open rejected, a null configuration rejected, a valid open of a
disabled instance succeeding into `Idle` with no callback. -/
theorem spi_open_contract_witness :
    spi_master_open idleSample (some cfgSample) =
      (NRF_ERROR_INVALID_STATE, idleSample) ∧
    spi_master_open clearedInstance none =
      (NRF_ERROR_NULL, clearedInstance) ∧
    (spi_master_open clearedInstance (some cfgSample)).1 = NRF_SUCCESS ∧
    spi_master_get_state (spi_master_open clearedInstance
        (some cfgSample)).2 = SPI_MASTER_STATE_IDLE ∧
    (spi_master_open clearedInstance (some cfgSample)).2.handler = none := by
  have h1 := (spi_open_contract idleSample (some cfgSample)).1 (by decide)
  have h2 := (spi_open_contract clearedInstance none).2.1 rfl rfl
  have h3 := (spi_open_contract clearedInstance (some cfgSample)).2.2.2 rfl
    cfgSample rfl (by decide)
  exact ⟨h1, h2, h3.1, h3.2.1, h3.2.2⟩

/-- C5: `spi_master_close` is idempotent: it always leaves the instance
with state `Disabled` and no callback registered, its C return type is
`void` (the embedding returns no result code, so no error is
signalled), and close applied twice equals close applied once. -/
theorem spi_close_idempotent_disabled (s : SpiInstance) :
    spi_master_close (spi_master_close s) = spi_master_close s ∧
    (spi_master_close s).state = SPI_MASTER_STATE_DISABLED ∧
    (spi_master_close s).handler = none := by
  rw [close_eq_cleared s, close_eq_cleared clearedInstance]
  refine ⟨rfl, rfl, rfl⟩

/-- C6: a `spi_master_send_recv` call with both lengths zero is
accepted from `Idle` and, within the same logical call sequence (the
call followed by the engine run), raises
`SPI_MASTER_EVT_TRANSFER_COMPLETED` with `data_count = 0` and leaves
the instance `Idle` again. -/
theorem spi_zero_length_transfer_completes_idle (s : SpiInstance)
    (k : Nat) (incoming : Nat → Nat)
    (hs : s.state = SPI_MASTER_STATE_IDLE)
    (hh : s.handler = some k) :
    (spi_master_send_recv s none 0 none 0).1 = NRF_SUCCESS ∧
    (run_transfer (spi_master_send_recv s none 0 none 0).2.1
        incoming).1.state = SPI_MASTER_STATE_IDLE ∧
    (run_transfer (spi_master_send_recv s none 0 none 0).2.1
        incoming).2 = [⟨SPI_MASTER_EVT_TRANSFER_COMPLETED, 0⟩] := by
  have hacc := send_recv_accepts s none 0 none 0 hs (Nat.le_refl 0)
    (Nat.le_refl 0)
  have hrun := run_after_accept s none 0 none 0 incoming k hs hh
    (Nat.le_refl 0) (Nat.le_refl 0)
  refine ⟨?_, hrun.1, ?_⟩
  · rw [hacc]
  · rw [hrun.2]
    simp [toU16]

/-- Witness for C6 at a concrete idle instance. -/
theorem spi_zero_length_transfer_completes_idle_witness :
    (spi_master_send_recv idleSample none 0 none 0).1 = NRF_SUCCESS ∧
    (run_transfer (spi_master_send_recv idleSample none 0 none 0).2.1
        (fun _ => 0)).1.state = SPI_MASTER_STATE_IDLE ∧
    (run_transfer (spi_master_send_recv idleSample none 0 none 0).2.1
        (fun _ => 0)).2 = [⟨SPI_MASTER_EVT_TRANSFER_COMPLETED, 0⟩] :=
  spi_zero_length_transfer_completes_idle idleSample 5 (fun _ => 0) rfl rfl

/-- C7: `spi_master_close` on a `Busy` instance factors through the
force-abort `spi_abort`, which releases the borrowed buffer references
while the state is not yet `Disabled`; the close then leaves the state
`Disabled` with both buffer references released, and a subsequent
`spi_master_open` succeeds, yielding a fresh `Idle` instance with no
residual state from the aborted transfer. -/
theorem spi_close_while_busy_aborts_then_disables (s : SpiInstance)
    (c : spi_master_config_t)
    (hs : s.state = SPI_MASTER_STATE_BUSY)
    (hc : config_structurally_valid c = true) :
    spi_master_close s = spi_master_close (spi_abort s) ∧
    (spi_abort s).p_tx_buf = none ∧
    (spi_abort s).p_rx_buf = none ∧
    (spi_abort s).state ≠ SPI_MASTER_STATE_DISABLED ∧
    (spi_master_close s).state = SPI_MASTER_STATE_DISABLED ∧
    (spi_master_close s).p_tx_buf = none ∧
    (spi_master_close s).p_rx_buf = none ∧
    spi_master_open (spi_master_close s) (some c) =
      (NRF_SUCCESS,
        { state := SPI_MASTER_STATE_IDLE
          handler := none
          p_tx_buf := none
          tx_buf_len := 0
          p_rx_buf := none
          rx_buf_len := 0
          bytes_transferred := 0 }) := by
  have habort : spi_abort s =
      { s with state := SPI_MASTER_STATE_IDLE
               p_tx_buf := none
               p_rx_buf := none } := by
    simp [spi_abort, hs]
  refine ⟨?_, ?_, ?_, ?_, ?_, ?_, ?_, ?_⟩
  · rw [close_eq_cleared, close_eq_cleared]
  · rw [habort]
  · rw [habort]
  · rw [habort]
    simp
  · rw [close_eq_cleared]
    rfl
  · rw [close_eq_cleared]
    rfl
  · rw [close_eq_cleared]
    rfl
  · rw [close_eq_cleared]
    simp [spi_master_open, clearedInstance, hc]

/-- Witness for C7 at a concrete busy instance and valid
configuration. -/
theorem spi_close_while_busy_aborts_then_disables_witness :
    spi_master_close busySample = spi_master_close (spi_abort busySample) ∧
    (spi_abort busySample).p_tx_buf = none ∧
    (spi_abort busySample).p_rx_buf = none ∧
    (spi_abort busySample).state ≠ SPI_MASTER_STATE_DISABLED ∧
    (spi_master_close busySample).state = SPI_MASTER_STATE_DISABLED ∧
    (spi_master_close busySample).p_tx_buf = none ∧
    (spi_master_close busySample).p_rx_buf = none ∧
    spi_master_open (spi_master_close busySample) (some cfgSample) =
      (NRF_SUCCESS,
        { state := SPI_MASTER_STATE_IDLE
          handler := none
          p_tx_buf := none
          tx_buf_len := 0
          p_rx_buf := none
          rx_buf_len := 0
          bytes_transferred := 0 }) :=
  spi_close_while_busy_aborts_then_disables busySample cfgSample rfl
    (by decide)

/-- C8: a `spi_master_send_recv` request whose length exceeds the
buffer's capacity fails synchronously with `NRF_ERROR_INVALID_PARAM`,
leaving the instance unchanged (no silent truncation); moreover every
event the driver ever raises is `SPI_MASTER_EVT_TRANSFER_STARTED` or
`SPI_MASTER_EVT_TRANSFER_COMPLETED` — errors are returned from the
detecting call (a failing call raises no event) and never delivered
through the event callback. -/
theorem spi_errors_synchronous_invalid_param (s : SpiInstance)
    (p_tx : Option (List Nat)) (tx_buf_len : Nat)
    (p_rx : Option (List Nat)) (rx_buf_len : Nat) (incoming : Nat → Nat) :
    (s.state = SPI_MASTER_STATE_IDLE →
      (p_tx = none → tx_buf_len = 0) →
      (p_rx = none → rx_buf_len = 0) →
      (tx_buf_len > bufCapacity p_tx ∨ rx_buf_len > bufCapacity p_rx) →
      spi_master_send_recv s p_tx tx_buf_len p_rx rx_buf_len =
        (NRF_ERROR_INVALID_PARAM, s, [])) ∧
    (∀ e ∈ (spi_master_send_recv s p_tx tx_buf_len p_rx rx_buf_len).2.2,
      e.evt_type = SPI_MASTER_EVT_TRANSFER_STARTED ∨
      e.evt_type = SPI_MASTER_EVT_TRANSFER_COMPLETED) ∧
    ((spi_master_send_recv s p_tx tx_buf_len p_rx rx_buf_len).1 ≠
        NRF_SUCCESS →
      (spi_master_send_recv s p_tx tx_buf_len p_rx rx_buf_len).2.2 = []) ∧
    (∀ e ∈ (run_transfer s incoming).2,
      e.evt_type = SPI_MASTER_EVT_TRANSFER_STARTED ∨
      e.evt_type = SPI_MASTER_EVT_TRANSFER_COMPLETED) := by
  refine ⟨?_, ?_, ?_, ?_⟩
  · intro hs h1 h2 hcap
    have hnull : ¬((p_tx = none ∧ tx_buf_len ≠ 0) ∨
        (p_rx = none ∧ rx_buf_len ≠ 0)) := by
      push_neg
      exact ⟨h1, h2⟩
    simp [spi_master_send_recv, hs, hnull, hcap]
  · intro e he
    unfold spi_master_send_recv at he
    split at he
    · simp at he
    · split at he
      · simp at he
      · split at he
        · simp at he
        · exact Or.inl (raise_event_type _ _ _ _ he)
  · intro hne
    by_cases hs : s.state ≠ SPI_MASTER_STATE_IDLE
    · simp [spi_master_send_recv, hs]
    · by_cases hn : (p_tx = none ∧ tx_buf_len ≠ 0) ∨
          (p_rx = none ∧ rx_buf_len ≠ 0)
      · simp [spi_master_send_recv, hs, hn]
      · by_cases hcap : tx_buf_len > bufCapacity p_tx ∨
            rx_buf_len > bufCapacity p_rx
        · simp [spi_master_send_recv, hs, hn, hcap]
        · exact absurd (by simp [spi_master_send_recv, hs, hn, hcap]) hne
  · intro e he
    unfold run_transfer at he
    split at he
    · exact Or.inr (raise_event_type _ _ _ _ he)
    · simp at he

/-- Witness for C8 at a concrete over-long request: a 5-byte transmit
length over a 1-byte buffer is rejected with
`NRF_ERROR_INVALID_PARAM` and no event. -/
theorem spi_errors_synchronous_invalid_param_witness :
    spi_master_send_recv idleSample (some [1]) 5 none 0 =
      (NRF_ERROR_INVALID_PARAM, idleSample, []) :=
  (spi_errors_synchronous_invalid_param idleSample (some [1]) 5 none 0
    (fun _ => 0)).1 rfl (by decide) (by decide) (by decide)

/-- C9: at every byte position where the transmit buffer is exhausted
while clock cycles remain, the byte the engine writes to the shift
register is the fixed default byte `SPI_DEFAULT_TX_BYTE = 0x00`. -/
theorem spi_default_tx_byte_padding (s : SpiInstance) (i : Nat)
    (h : s.tx_buf_len ≤ i) (h2 : i < transfer_len s) :
    tx_byte_at s i = SPI_DEFAULT_TX_BYTE ∧
    (shifted_out s).getD i 255 = SPI_DEFAULT_TX_BYTE ∧
    SPI_DEFAULT_TX_BYTE = 0 := by
  have hb : tx_byte_at s i = SPI_DEFAULT_TX_BYTE := by
    unfold tx_byte_at
    rw [if_neg (Nat.not_lt.mpr h)]
  refine ⟨hb, ?_, rfl⟩
  unfold shifted_out
  rw [List.getD_eq_getElem?_getD, List.getElem?_map,
    List.getElem?_range h2]
  simp [hb]

/-- Witness for C9: byte position 2 of a transfer with a 1-byte
transmit buffer and 3-byte receive buffer is padded with
`SPI_DEFAULT_TX_BYTE`. -/
theorem spi_default_tx_byte_padding_witness :
    tx_byte_at rxHeavySample 2 = SPI_DEFAULT_TX_BYTE ∧
    (shifted_out rxHeavySample).getD 2 255 = SPI_DEFAULT_TX_BYTE ∧
    SPI_DEFAULT_TX_BYTE = 0 :=
  spi_default_tx_byte_padding rxHeavySample 2 (by decide) (by decide)

/-- C10: transfer lengths are `uint16_t` values, so both are at most
65535, `max` of the two is at most 65535 and is stored exactly
(without overflow) in the `uint16_t` `data_count` field of the
completion event. -/
theorem spi_uint16_lengths_no_overflow (s : SpiInstance)
    (tx_buf_len rx_buf_len k : Nat) (incoming : Nat → Nat)
    (hs : s.state = SPI_MASTER_STATE_IDLE)
    (hh : s.handler = some k)
    (htx16 : tx_buf_len ≤ 65535) (hrx16 : rx_buf_len ≤ 65535) :
    max tx_buf_len rx_buf_len ≤ 65535 ∧
    toU16 (max tx_buf_len rx_buf_len) = max tx_buf_len rx_buf_len ∧
    (run_transfer (spi_master_send_recv s
        (some (List.replicate tx_buf_len 7)) tx_buf_len
        (some (List.replicate rx_buf_len 0)) rx_buf_len).2.1
        incoming).2 =
      [⟨SPI_MASTER_EVT_TRANSFER_COMPLETED,
        max tx_buf_len rx_buf_len⟩] := by
  have hmax : max tx_buf_len rx_buf_len ≤ 65535 := max_le htx16 hrx16
  have hmod : toU16 (max tx_buf_len rx_buf_len) =
      max tx_buf_len rx_buf_len := Nat.mod_eq_of_lt (by omega)
  refine ⟨hmax, hmod, ?_⟩
  have h := (run_after_accept s
    (some (List.replicate tx_buf_len 7)) tx_buf_len
    (some (List.replicate rx_buf_len 0)) rx_buf_len incoming k hs hh
    (by simp [bufCapacity]) (by simp [bufCapacity])).2
  rw [h, hmod]

/-- Witness for C10 at concrete `uint16_t` lengths 2 and 1. -/
theorem spi_uint16_lengths_no_overflow_witness :
    max 2 1 ≤ 65535 ∧
    toU16 (max 2 1) = max 2 1 ∧
    (run_transfer (spi_master_send_recv idleSample
        (some (List.replicate 2 7)) 2
        (some (List.replicate 1 0)) 1).2.1 (fun _ => 0)).2 =
      [⟨SPI_MASTER_EVT_TRANSFER_COMPLETED, max 2 1⟩] :=
  spi_uint16_lengths_no_overflow idleSample 2 1 5 (fun _ => 0) rfl rfl
    (by decide) (by decide)

end SpiMaster
